import Mathlib

/-!
# Shallow embedding of the gold-price Telegram bot (`src/index.js`)

The bot keeps two persisted values — a subscriber list (`users.json`) and the
most recent price snapshot (`data.json`) — fetches gold prices periodically,
compares them against the stored snapshot, and broadcasts notifications.

Modelling conventions:
* Chat identities are opaque strings.  The source compares the sender's
  identity with the configured admin via `chatId.toString() === ADMIN_CHAT_ID`;
  we model both sides as `String` and compare with `=`.
* JavaScript numbers produced by `parseFloat` are modelled by `JNum`:
  either a rational number or `NaN`.  A payload price field whose text is
  non-numeric parses to `JNum.nan`; arithmetic propagates `nan` and every
  ordering comparison involving `nan` is `false`, as in JavaScript.
* Effects are made explicit: each operation returns the new persisted state
  together with the ordered list of attempted Telegram sends
  `(recipient chatId, message text)`.  `sendTelegramMessage` itself never
  throws (it catches and returns `false`); whether a given send succeeds is an
  environment parameter `sendOk : String → Bool`.
* `fs.writeFileSync` failures are caught and logged by `saveUsers`/`saveData`;
  we model a write attempt's outcome by a boolean `writeOk` argument: on
  `false` the file keeps its previous contents (writes are whole-file
  replacements) and the function still returns normally, exactly as the
  `try/catch` in the source does.
* `formatPrice` (locale currency rendering via `toLocaleString('id-ID', …)`)
  and `formatDate` (calendar date via `Date`/`toISOString`) delegate to the
  JavaScript runtime's locale machinery; they are taken as uninterpreted
  formatting parameters `fp : JNum → String` and `fd : String → String`.
  No claim depends on the rendered text, only on which template is used.
-/

namespace GoldBot

/-- A JavaScript number as produced by `parseFloat`: a rational value or
`NaN` (the result of parsing a non-numeric price field). -/
inductive JNum where
  | nan : JNum
  | num : ℚ → JNum
deriving DecidableEq, Repr

/-- JavaScript `<` on numbers: any comparison with `NaN` is `false`. -/
def JNum.lt : JNum → JNum → Bool
  | .num a, .num b => decide (a < b)
  | _, _ => false

/-- JavaScript `>` on numbers: any comparison with `NaN` is `false`. -/
def JNum.gt : JNum → JNum → Bool
  | .num a, .num b => decide (b < a)
  | _, _ => false

/-- JavaScript subtraction by a constant; `NaN` propagates. -/
def JNum.sub : JNum → ℚ → JNum
  | .num a, m => .num (a - m)
  | .nan, _ => .nan

/-- JavaScript addition of a constant; `NaN` propagates. -/
def JNum.add : JNum → ℚ → JNum
  | .num a, m => .num (a + m)
  | .nan, _ => .nan

/-- A subscriber record as stored in `users.json`
(`{chatId, username, subscribedAt}`, created by `addUser`). -/
structure User where
  chatId : String
  username : String
  subscribedAt : String
deriving DecidableEq, Repr

/-- The price snapshot persisted in `data.json` by `checkPriceChanges`
(`{buyPrice, sellPrice, lastUpdate}`). -/
structure Snapshot where
  buyPrice : JNum
  sellPrice : JNum
  lastUpdate : String
deriving DecidableEq, Repr

/-- One entry of the upstream `data.priceList` array.  The two price fields
appear here after `parseFloat`: a non-numeric upstream string is represented
by `JNum.nan` (in JavaScript `parseFloat` never throws, it yields `NaN`). -/
structure PriceEntry where
  hargaJual : JNum
  hargaBeli : JNum
  lastUpdate : String
deriving DecidableEq, Repr

/-- The `data` field of the upstream response body. -/
structure PayloadData where
  priceList : List PriceEntry
deriving DecidableEq, Repr

/-- The upstream response body (`response.data` in axios terms).  `data` is
`none` when the field is absent, in which case reading
`currentData.data.priceList` throws a `TypeError` that `checkPriceChanges`
catches. -/
structure ApiResponse where
  data : Option PayloadData
deriving DecidableEq, Repr

/-- The observable condition of a persisted JSON file when it is read:
absent, present but unreadable/unparsable (read or `JSON.parse` throws), or
present with well-formed contents. -/
inductive FileRead (α : Type) where
  | missing : FileRead α
  | unreadable : FileRead α
  | good : α → FileRead α
deriving DecidableEq, Repr

/-! Message templates from the `MESSAGES` constant in `src/index.js`. -/

namespace Messages

def PRICE_LIST : String :=
  "*Gold Savings Price List*\n\nBuy: {buyPrice}\nSell: {sellPrice}\nLast Update: {lastUpdate}"

def BUY_PRICE_DROPPED : String :=
  "⬇️ *Buy price dropped* From {oldPrice} to *{newPrice}*"

def SELL_PRICE_INCREASED : String :=
  "⬆️ *Sell price increased* From {oldPrice} to *{newPrice}*"

def DATA_FETCH_ERROR : String :=
  "⚠️ *Failed to fetch price data*\nError: {errorMessage}"

def WELCOME : String :=
  "Welcome to Gold Price Bot! You are now subscribed to price updates. Use /help for available commands."

def ALREADY_SUBSCRIBED : String :=
  "You are already subscribed to price updates!"

def UNSUBSCRIBED : String :=
  "You have unsubscribed from price updates. Use /start to subscribe again."

def NOT_SUBSCRIBED : String :=
  "You are not currently subscribed to updates."

def HELP : String :=
  "Available commands:\n/start - Subscribe to price updates\n/stop - Unsubscribe from price updates\n/help - Show this help message"

def ADMIN_HELP : String :=
  "Admin commands:\n/broadcast [message] - Send message to all subscribers"

def BROADCAST_SENT : String :=
  "✅ Broadcast sent to {count} users"

def UNAUTHORIZED : String :=
  "You are not authorized to use this command."

end Messages

/-- Scanner for `jsReplace`: walks the text and splices in the replacement at
the first occurrence of the pattern, leaving the rest untouched. -/
def jsReplaceGo (pat repl : List Char) : List Char → List Char
  | [] => []
  | c :: cs =>
      if pat.isPrefixOf (c :: cs) then repl ++ (c :: cs).drop pat.length
      else c :: jsReplaceGo pat repl cs

/-- JavaScript `s.replace(pat, repl)` with a string pattern: replaces the
FIRST occurrence only.  (Lean's built-in `String.replace` replaces all
occurrences and is opaque to the kernel, so the JavaScript operation is
modelled structurally on the underlying character list.) -/
def jsReplace (s pat repl : String) : String :=
  ⟨jsReplaceGo pat.data repl.data s.data⟩

/-- Model of `loadUsers`: reads `users.json`.  A missing file is (re)created empty and
`[]` is returned; a read/parse failure is caught, logged and `[]` is returned;
otherwise the parsed array is returned.  Total — it never throws. -/
def loadUsers : FileRead (List User) → List User
  | .missing => []
  | .unreadable => []
  | .good users => users

/-- Model of `loadData`: reads `data.json`.  Returns `null` (here `none`) when the file
is missing or when reading/parsing throws (caught and logged); otherwise the
parsed snapshot. Total — it never throws. -/
def loadData : FileRead Snapshot → Option Snapshot
  | .missing => none
  | .unreadable => none
  | .good s => some s

/-- Model of `addUser(chatId, username)` acting on the on-disk subscriber list `disk`.
If a record with the same `chatId` exists (`users.find(...)` truthy) it
returns `false` without mutation; otherwise it pushes the new record and calls
`saveUsers`, whose `try/catch` means a failed write (`writeOk = false`) leaves
the old file contents in place — yet `addUser` still returns `true`.
Result: (returned boolean, resulting on-disk list). -/
def addUser (disk : List User) (writeOk : Bool) (chatId username now : String) :
    Bool × List User :=
  if disk.any fun u => u.chatId == chatId then
    (false, disk)
  else
    (true, if writeOk then disk ++ [{ chatId := chatId, username := username, subscribedAt := now }] else disk)

/-- Model of `removeUser(chatId)` acting on the on-disk subscriber list `disk`.
Filters out every record with the given `chatId`; if the filtered list is
shorter it calls `saveUsers` (failed write keeps the old contents) and returns
`true`, else returns `false` without mutation. -/
def removeUser (disk : List User) (writeOk : Bool) (chatId : String) :
    Bool × List User :=
  let filteredUsers := disk.filter fun u => u.chatId != chatId
  if filteredUsers.length < disk.length then
    (true, if writeOk then filteredUsers else disk)
  else
    (false, disk)

/-- Model of `isUserSubscribed(chatId)`: whether some stored record has this chatId. -/
def isUserSubscribed (disk : List User) (chatId : String) : Bool :=
  disk.any fun u => u.chatId == chatId

/-- Model of `broadcastMessage(message)`: iterates the current subscriber list, calling
`sendTelegramMessage` (which never throws) once per subscriber in order, and
counts successes.  Result: (number of successful sends, ordered list of
attempted sends as (recipient, message) pairs). -/
def broadcastMessage (users : List User) (sendOk : String → Bool) (message : String) :
    Nat × List (String × String) :=
  users.foldl
    (fun acc u =>
      ((if sendOk u.chatId then acc.1 + 1 else acc.1), acc.2 ++ [(u.chatId, message)]))
    (0, [])

/-- The price-list announcement text built in `checkPriceChanges` (and reused
for new subscribers in `processUpdate`): the `PRICE_LIST` template with the
formatted buy price, sell price and calendar date substituted. -/
def priceListMessage (fp : JNum → String) (fd : String → String) (s : Snapshot) : String :=
  jsReplace (jsReplace (jsReplace Messages.PRICE_LIST "{buyPrice}" (fp s.buyPrice))
      "{sellPrice}" (fp s.sellPrice))
    "{lastUpdate}" (fd s.lastUpdate)

/-- The buy-dropped notification text: `BUY_PRICE_DROPPED` with the formatted
old (previous snapshot) and new (adjusted candidate) buy prices. -/
def buyDroppedMessage (fp : JNum → String) (oldPrice newPrice : JNum) : String :=
  jsReplace (jsReplace Messages.BUY_PRICE_DROPPED "{oldPrice}" (fp oldPrice))
    "{newPrice}" (fp newPrice)

/-- The sell-increased notification text: `SELL_PRICE_INCREASED` with the
formatted old and new sell prices. -/
def sellIncreasedMessage (fp : JNum → String) (oldPrice newPrice : JNum) : String :=
  jsReplace (jsReplace Messages.SELL_PRICE_INCREASED "{oldPrice}" (fp oldPrice))
    "{newPrice}" (fp newPrice)

/-- The admin alert text sent by `fetchData` when the HTTP fetch throws:
`DATA_FETCH_ERROR` with the error message substituted. -/
def dataFetchErrorMessage (errorMessage : String) : String :=
  jsReplace Messages.DATA_FETCH_ERROR "{errorMessage}" errorMessage

/-- One detection cycle: `checkPriceChanges` together with the `fetchData`
error path inlined.  Inputs: the admin identity, the current subscriber list
(read by `broadcastMessage`), the send-success environment, the two
formatting functions, the previously persisted snapshot (`loadData`'s
result), whether `saveData`'s write succeeds, and the fetch outcome
(`.error msg` when the HTTP request threw with that message, `.ok resp`
otherwise).  Output: the resulting persisted snapshot and the ordered list of
attempted sends.

Source behaviour embedded here:
* fetch failure: `fetchData`'s catch sends `DATA_FETCH_ERROR` to the admin and
  returns `null`; `checkPriceChanges` then returns — no broadcast, no save;
* the parse of `currentData.data.priceList[0]` throws when `data` is absent or
  `priceList` is empty; the surrounding `try/catch` only logs — the admin is
  NOT notified on this path and nothing is saved;
* no previous snapshot: the candidate is saved verbatim and the price list is
  broadcast once;
* previous snapshot present: the candidate is adjusted by the fixed margin
  1000 (buy − 1000, sell + 1000), a buy-dropped broadcast fires when the
  adjusted buy is `<` the previous buy, a sell-increased broadcast fires when
  the adjusted sell is `>` the previous sell (buy before sell), and the
  adjusted candidate is saved unconditionally. -/
def checkPriceChanges (admin : String) (users : List User) (sendOk : String → Bool)
    (fp : JNum → String) (fd : String → String)
    (previousData : Option Snapshot) (writeOk : Bool)
    (fetched : Except String ApiResponse) :
    Option Snapshot × List (String × String) :=
  match fetched with
  | .error errorMessage =>
      (previousData, [(admin, dataFetchErrorMessage errorMessage)])
  | .ok currentData =>
      match currentData.data with
      | none => (previousData, [])
      | some d =>
          match d.priceList with
          | [] => (previousData, [])
          | entry :: _ =>
              let newData : Snapshot :=
                { buyPrice := entry.hargaJual
                  sellPrice := entry.hargaBeli
                  lastUpdate := entry.lastUpdate }
              match previousData with
              | none =>
                  (if writeOk then some newData else none,
                   (broadcastMessage users sendOk (priceListMessage fp fd newData)).2)
              | some prev =>
                  let adjusted : Snapshot :=
                    { buyPrice := newData.buyPrice.sub 1000
                      sellPrice := newData.sellPrice.add 1000
                      lastUpdate := newData.lastUpdate }
                  let buyMsgs : List String :=
                    if adjusted.buyPrice.lt prev.buyPrice then
                      [buyDroppedMessage fp prev.buyPrice adjusted.buyPrice]
                    else []
                  let sellMsgs : List String :=
                    if adjusted.sellPrice.gt prev.sellPrice then
                      [sellIncreasedMessage fp prev.sellPrice adjusted.sellPrice]
                    else []
                  ((if writeOk then some adjusted else some prev),
                   ((buyMsgs ++ sellMsgs).map
                      fun m => (broadcastMessage users sendOk m).2).flatten)

/-- The two persisted stores, as seen by `processUpdate`: the subscriber list
and the current snapshot (or its absence). -/
structure BotState where
  users : List User
  snapshot : Option Snapshot
deriving DecidableEq, Repr

/-- The fields of a Telegram update that `processUpdate` reads after its
`update.message` guard: `update.message.chat.id` (compared to the admin via
`toString()`), `update.message.text || ''`, and
`update.message.from.username || 'unknown'`. -/
structure Update where
  chatId : String
  text : String
  username : String
deriving DecidableEq, Repr

/-- JavaScript `messageText.split(' ')[0]`: the text up to (excluding) the
first space, the whole text when there is none.  (Lean's built-in `String`
functions are opaque to the kernel, so the JavaScript string operations are
modelled structurally on the underlying character list.) -/
def jsFirstToken (s : String) : String :=
  ⟨s.data.takeWhile fun c => c != ' '⟩

/-- JavaScript `s.substring(n)`: drop the first `n` characters (all text
handled here is ASCII, so code units coincide with characters). -/
def jsDrop (s : String) (n : Nat) : String :=
  ⟨s.data.drop n⟩

/-- JavaScript `s.trim()`: strip leading and trailing whitespace. -/
def jsTrim (s : String) : String :=
  ⟨((s.data.dropWhile Char.isWhitespace).reverse.dropWhile Char.isWhitespace).reverse⟩

/-- JavaScript `s.startsWith(p)`. -/
def jsStartsWith (s p : String) : Bool :=
  p.data.isPrefixOf s.data

/-- JavaScript `s.length` (the command tokens here are ASCII). -/
def jsLength (s : String) : Nat :=
  s.data.length

/-- Model of `processUpdate`: dispatch of one inbound message.  When the text starts
with `/`, the command is `messageText.split(' ')[0]` and the argument string
is `messageText.substring(command.length).trim()`; dispatch is on exact
command match with an unknown-command fallback; non-command text gets a help
hint unless the sender is the admin.  Output: the resulting store state and
the ordered attempted sends. -/
def processUpdate (admin : String) (sendOk : String → Bool) (writeOk : Bool)
    (now : String) (fp : JNum → String) (fd : String → String)
    (st : BotState) (upd : Update) : BotState × List (String × String) :=
  let chatId := upd.chatId
  let messageText := upd.text
  if jsStartsWith messageText "/" then
    let command := jsFirstToken messageText
    let args := jsTrim (jsDrop messageText (jsLength command))
    if command = "/start" then
      let r := addUser st.users writeOk chatId upd.username now
      let reply := if r.1 then Messages.WELCOME else Messages.ALREADY_SUBSCRIBED
      let priceSends :=
        if r.1 then
          match st.snapshot with
          | some currentData => [(chatId, priceListMessage fp fd currentData)]
          | none => []
        else []
      ({ st with users := r.2 }, (chatId, reply) :: priceSends)
    else if command = "/stop" then
      let r := removeUser st.users writeOk chatId
      let reply := if r.1 then Messages.UNSUBSCRIBED else Messages.NOT_SUBSCRIBED
      ({ st with users := r.2 }, [(chatId, reply)])
    else if command = "/help" then
      let helpMessage :=
        if chatId = admin then Messages.HELP ++ "\n\n" ++ Messages.ADMIN_HELP
        else Messages.HELP
      (st, [(chatId, helpMessage)])
    else if command = "/broadcast" then
      if chatId ≠ admin then
        (st, [(chatId, Messages.UNAUTHORIZED)])
      else if args ≠ "" then
        let r := broadcastMessage st.users sendOk args
        (st, r.2 ++ [(chatId, jsReplace Messages.BROADCAST_SENT "{count}" (toString r.1))])
      else
        (st, [(chatId, "Please provide a message to broadcast")])
    else
      (st, [(chatId, "Unknown command. Use /help for available commands.")])
  else
    if chatId ≠ admin then
      (st, [(chatId, "Use /help for available commands.")])
    else
      (st, [])

/-- One mutating operation on the subscriber store aimed at a fixed identity,
tagged with whether its `saveUsers` write succeeds. -/
inductive UserOp where
  | add : String → String → Bool → UserOp
  | remove : Bool → UserOp
deriving DecidableEq, Repr

/-- Apply one `UserOp` for identity `c` to the on-disk subscriber list. -/
def applyOp (c : String) (disk : List User) : UserOp → List User
  | .add username now writeOk => (addUser disk writeOk c username now).2
  | .remove writeOk => (removeUser disk writeOk c).2

/-- A concrete subscriber list used by witnesses and counterexamples. -/
def demoUsers : List User :=
  [{ chatId := "111", username := "alice", subscribedAt := "2024-01-01" },
   { chatId := "222", username := "bob", subscribedAt := "2024-01-02" }]

/-- A concrete previous snapshot used by witnesses and counterexamples. -/
def demoSnap : Snapshot :=
  { buyPrice := .num 100000, sellPrice := .num 95000, lastUpdate := "2024-03-01" }

/-- A concrete stand-in for the locale price formatter, used only to
instantiate theorems at concrete inputs. -/
def demoFormatPrice : JNum → String := fun _ => "Rp"

/-- A concrete stand-in for the calendar-date formatter, used only to
instantiate theorems at concrete inputs. -/
def demoFormatDate : String → String := fun s => s

/-! ## Basic lemmas about the dispatcher and the stores -/

/-- Closed form of `broadcastMessage`: the success count is the number of
subscribers whose send succeeds, and the attempts are one per subscriber in
store order. -/
theorem broadcastMessage_eq (users : List User) (sendOk : String → Bool) (m : String) :
    broadcastMessage users sendOk m
      = ((users.filter fun u => sendOk u.chatId).length,
         users.map fun u => (u.chatId, m)) := by
  suffices h : ∀ (n : Nat) (acc : List (String × String)),
      users.foldl
          (fun acc u =>
            ((if sendOk u.chatId then acc.1 + 1 else acc.1), acc.2 ++ [(u.chatId, m)]))
          (n, acc)
        = (n + (users.filter fun u => sendOk u.chatId).length,
           acc ++ users.map fun u => (u.chatId, m)) by
    simpa [broadcastMessage] using h 0 []
  induction users with
  | nil => intro n acc; simp
  | cons u us ih =>
      intro n acc
      by_cases hu : sendOk u.chatId <;>
        simp [List.filter_cons, hu, ih, Nat.add_assoc, Nat.add_comm 1]

/-- Splitting a subscriber list by send success: successes plus failures give
the whole list back. -/
theorem length_filter_sendOk_add (users : List User) (sendOk : String → Bool) :
    (users.filter fun u => sendOk u.chatId).length
      + (users.filter fun u => !(sendOk u.chatId)).length = users.length := by
  induction users with
  | nil => rfl
  | cons u us ih =>
      by_cases hu : sendOk u.chatId <;> simp [List.filter_cons, hu] <;> omega

/-- A subscriber list contains the identity iff filtering it away shortens
the list (the guard used by `removeUser`). -/
theorem filter_length_lt_iff (disk : List User) (c : String) :
    ((disk.filter fun u => u.chatId != c).length < disk.length)
      ↔ isUserSubscribed disk c = true := by
  rw [List.length_filter_lt_length_iff_exists]
  simp [isUserSubscribed, List.any_eq_true]

/-! ## Claim theorems -/

/-- C6: broadcasting over N subscribers of which M individual sends fail
attempts delivery to each subscriber exactly once (in store order), returns
exactly N − M successes, and — being a total function whose per-recipient
sends catch their own errors — never raises. -/
theorem broadcast_attempts_and_count (users : List User) (sendOk : String → Bool) (m : String) :
    (broadcastMessage users sendOk m).2 = (users.map fun u => (u.chatId, m))
    ∧ (broadcastMessage users sendOk m).1
        + (users.filter fun u => !(sendOk u.chatId)).length = users.length
    ∧ (broadcastMessage users sendOk m).1
        = users.length - (users.filter fun u => !(sendOk u.chatId)).length := by
  rw [broadcastMessage_eq]
  have h := length_filter_sendOk_add users sendOk
  exact ⟨rfl, h, by omega⟩

/-- C4: on a fetch failure the cycle aborts with the snapshot untouched and
exactly one attempted message, which goes to the admin identity; no
subscriber broadcast occurs. -/
theorem fetch_failure_spec (admin : String) (users : List User) (sendOk : String → Bool)
    (fp : JNum → String) (fd : String → String) (prev : Option Snapshot)
    (writeOk : Bool) (msg : String) :
    checkPriceChanges admin users sendOk fp fd prev writeOk (.error msg)
      = (prev, [(admin, dataFetchErrorMessage msg)]) := rfl

/-- C2: on a cycle with no previous snapshot, the parsed candidate is
persisted verbatim (no margin adjustment) and the only sends are the single
price-list announcement broadcast to every current subscriber; no comparison
happens. -/
theorem first_cycle_spec (admin : String) (users : List User) (sendOk : String → Bool)
    (fp : JNum → String) (fd : String → String) (entry : PriceEntry)
    (rest : List PriceEntry) :
    checkPriceChanges admin users sendOk fp fd none true
        (.ok { data := some { priceList := entry :: rest } })
      = (some { buyPrice := entry.hargaJual, sellPrice := entry.hargaBeli,
                lastUpdate := entry.lastUpdate },
         users.map fun u =>
           (u.chatId,
            priceListMessage fp fd
              { buyPrice := entry.hargaJual, sellPrice := entry.hargaBeli,
                lastUpdate := entry.lastUpdate })) := by
  simp [checkPriceChanges, broadcastMessage_eq]

/-- C10: reads of the two persisted stores are total: a missing or
unreadable subscriber file reads as the empty collection (so `contains`
reports unsubscribed and a broadcast attempts nothing and returns 0), and a
missing or unreadable snapshot file reads as absent (so the next detection
cycle behaves exactly as the no-snapshot first cycle). -/
theorem store_reads_total_spec (c m admin : String) (sendOk : String → Bool)
    (users : List User) (fp : JNum → String) (fd : String → String)
    (w : Bool) (f : Except String ApiResponse) :
    loadUsers .missing = [] ∧ loadUsers .unreadable = []
    ∧ isUserSubscribed (loadUsers .missing) c = false
    ∧ isUserSubscribed (loadUsers .unreadable) c = false
    ∧ broadcastMessage (loadUsers .missing) sendOk m = (0, [])
    ∧ broadcastMessage (loadUsers .unreadable) sendOk m = (0, [])
    ∧ loadData .missing = none ∧ loadData .unreadable = none
    ∧ checkPriceChanges admin users sendOk fp fd (loadData .missing) w f
        = checkPriceChanges admin users sendOk fp fd none w f
    ∧ checkPriceChanges admin users sendOk fp fd (loadData .unreadable) w f
        = checkPriceChanges admin users sendOk fp fd none w f :=
  ⟨rfl, rfl, rfl, rfl, rfl, rfl, rfl, rfl, rfl, rfl⟩

/-- C1: on a cycle with a previous snapshot and numeric fetched prices, the
candidate is adjusted by the fixed margin 1000 (buy − 1000, sell + 1000); the
buy-dropped broadcast fires iff the adjusted buy price is strictly below the
previous buy price, the sell-increased broadcast fires iff the adjusted sell
price is strictly above the previous sell price, buy-drop sends precede
sell-increase sends when both fire, and the adjusted candidate is persisted
as the new snapshot regardless of whether any notification fired. -/
theorem steady_cycle_spec (admin : String) (users : List User) (sendOk : String → Bool)
    (fp : JNum → String) (fd : String → String)
    (bq sq pb ps : ℚ) (lu plu : String) (rest : List PriceEntry) :
    checkPriceChanges admin users sendOk fp fd
        (some { buyPrice := .num pb, sellPrice := .num ps, lastUpdate := plu }) true
        (.ok { data := some { priceList :=
          { hargaJual := .num bq, hargaBeli := .num sq, lastUpdate := lu } :: rest } })
      = (some { buyPrice := .num (bq - 1000), sellPrice := .num (sq + 1000),
                lastUpdate := lu },
         (if bq - 1000 < pb then
            users.map fun u =>
              (u.chatId, buyDroppedMessage fp (.num pb) (.num (bq - 1000)))
          else [])
         ++ (if sq + 1000 > ps then
            users.map fun u =>
              (u.chatId, sellIncreasedMessage fp (.num ps) (.num (sq + 1000)))
          else [])) := by
  by_cases hb : bq - 1000 < pb <;> by_cases hs : ps < sq + 1000 <;>
    simp [checkPriceChanges, JNum.sub, JNum.add, JNum.lt, JNum.gt, hb, hs,
      broadcastMessage_eq, GT.gt]

/-- C3 counterexample: a payload whose price fields are non-numeric (they
parse to `NaN`) is not handled like a fetch failure: the cycle sends nothing
at all — in particular the admin is NOT notified — and the persisted snapshot
IS overwritten (with the `NaN` candidate), contradicting the claim that the
snapshot is left unmutated and the admin alerted. -/
theorem malformed_payload_counterexample :
    (checkPriceChanges "42" demoUsers (fun _ => true) demoFormatPrice demoFormatDate
        (some demoSnap) true
        (.ok { data := some { priceList :=
          [{ hargaJual := .nan, hargaBeli := .nan, lastUpdate := "2024-03-02" }] } })).2
      = []
    ∧ (checkPriceChanges "42" demoUsers (fun _ => true) demoFormatPrice demoFormatDate
        (some demoSnap) true
        (.ok { data := some { priceList :=
          [{ hargaJual := .nan, hargaBeli := .nan, lastUpdate := "2024-03-02" }] } })).1
      ≠ some demoSnap := by
  refine ⟨rfl, ?_⟩
  decide

/-- C3 amended: malformed payloads are NOT handled identically to a fetch
failure.  When the payload shape makes the parse throw (missing `data` field
or empty price list) the cycle aborts with only a log: nothing is sent —
neither a broadcast nor an admin alert — and the snapshot is unchanged.  When
the price fields are merely non-numeric the parse yields `NaN` prices and the
cycle proceeds: with a previous snapshot present, no notification is
broadcast (`NaN` comparisons are false) but the snapshot IS overwritten with
the `NaN` candidate. -/
theorem malformed_payload_behavior (admin : String) (users : List User)
    (sendOk : String → Bool) (fp : JNum → String) (fd : String → String)
    (prev : Option Snapshot) (w : Bool) (p : Snapshot) (lu : String)
    (rest : List PriceEntry) :
    checkPriceChanges admin users sendOk fp fd prev w (.ok { data := none })
      = (prev, [])
    ∧ checkPriceChanges admin users sendOk fp fd prev w
        (.ok { data := some { priceList := [] } })
      = (prev, [])
    ∧ checkPriceChanges admin users sendOk fp fd (some p) true
        (.ok { data := some { priceList :=
          { hargaJual := .nan, hargaBeli := .nan, lastUpdate := lu } :: rest } })
      = (some { buyPrice := .nan, sellPrice := .nan, lastUpdate := lu }, []) := by
  refine ⟨rfl, rfl, ?_⟩
  simp [checkPriceChanges, JNum.sub, JNum.add, JNum.lt, JNum.gt]

/-- If the duplicate check of `addUser` finds nothing, the identity is not
among the stored chatIds. -/
theorem not_mem_of_any_eq_false {disk : List User} {c : String}
    (h : (disk.any fun u => u.chatId == c) = false) :
    c ∉ disk.map User.chatId := by
  intro hmem
  rw [List.mem_map] at hmem
  obtain ⟨u, hu, hc⟩ := hmem
  have htrue : (disk.any fun u => u.chatId == c) = true :=
    List.any_eq_true.mpr ⟨u, hu, by simp [hc]⟩
  rw [h] at htrue
  exact Bool.false_ne_true htrue

/-- Each store operation preserves distinctness of stored identities. -/
theorem applyOp_nodup (c : String) (op : UserOp) (disk : List User)
    (h : (disk.map User.chatId).Nodup) :
    ((applyOp c disk op).map User.chatId).Nodup := by
  cases op with
  | add username now w =>
      simp only [applyOp, addUser]
      by_cases hp : (disk.any fun u => u.chatId == c) = true
      · simp [hp, h]
      · rw [Bool.not_eq_true] at hp
        cases w with
        | false => simp [hp, h]
        | true =>
            simp only [hp, Bool.false_eq_true, if_false, if_true]
            rw [List.map_append, List.nodup_append]
            refine ⟨h, List.nodup_singleton _, ?_⟩
            intro x hx hxs
            simp only [List.map_cons, List.map_nil, List.mem_singleton] at hxs
            subst hxs
            exact not_mem_of_any_eq_false hp hx
  | remove w =>
      simp only [applyOp, removeUser]
      by_cases hl : (disk.filter fun u => u.chatId != c).length < disk.length
      · cases w with
        | false => simp [hl, h]
        | true =>
            simp only [hl, if_true]
            exact List.Nodup.sublist ((List.filter_sublist disk).map User.chatId) h
      · simp [hl, h]

/-- C5: starting from a duplicate-free store, any sequence of add/remove
operations on one identity keeps the store free of duplicate identities, and
`addUser` on an already-present identity is a no-op returning `false`. -/
theorem subscriber_store_nodup_invariant (c : String) (ops : List UserOp)
    (disk : List User) (h : (disk.map User.chatId).Nodup) :
    ((ops.foldl (applyOp c) disk).map User.chatId).Nodup
    ∧ ∀ (username now : String) (w : Bool),
        isUserSubscribed disk c = true →
          addUser disk w c username now = (false, disk) := by
  constructor
  · have inv : ∀ (l : List UserOp) (d : List User), (d.map User.chatId).Nodup →
        ((l.foldl (applyOp c) d).map User.chatId).Nodup := by
      intro l
      induction l with
      | nil => intro d hd; exact hd
      | cons op l ih =>
          intro d hd
          exact ih (applyOp c d op) (applyOp_nodup c op d hd)
    exact inv ops disk h
  · intro username now w hsub
    simp only [isUserSubscribed] at hsub
    simp [addUser, hsub]

/-- Witness for C5 at a concrete operation sequence. -/
theorem subscriber_store_nodup_invariant_witness :
    (([] : List User).map User.chatId).Nodup
    ∧ (([UserOp.add "alice" "t1" true, UserOp.add "dup" "t2" true,
         UserOp.remove true, UserOp.add "back" "t3" false,
         UserOp.add "back2" "t4" true].foldl (applyOp "111")
          []).map User.chatId).Nodup :=
  ⟨by decide, (subscriber_store_nodup_invariant "111" _ [] (by decide)).1⟩

/-- Removing an identity that is present shortens a duplicate-free store by
exactly one record. -/
theorem remove_present_length (disk : List User) (c : String)
    (hnd : (disk.map User.chatId).Nodup) (hmem : isUserSubscribed disk c = true) :
    (disk.filter fun u => u.chatId != c).length + 1 = disk.length := by
  induction disk with
  | nil => simp [isUserSubscribed] at hmem
  | cons u us ih =>
      rw [List.map_cons, List.nodup_cons] at hnd
      obtain ⟨hnotin, hnd'⟩ := hnd
      by_cases hc : u.chatId = c
      · have hkeep : us.filter (fun x => x.chatId != c) = us := by
          apply List.filter_eq_self.mpr
          intro x hx
          rw [bne_iff_ne]
          intro hxc
          exact hnotin (List.mem_map.mpr ⟨x, hx, (hxc.trans hc.symm).symm ▸ rfl⟩)
        have hu : (u.chatId != c) = false := by simp [hc]
        simp [List.filter_cons, hu, hkeep]
      · have hu : (u.chatId != c) = true := by simp [hc]
        have hmem' : isUserSubscribed us c = true := by
          simp only [isUserSubscribed, List.any_cons, Bool.or_eq_true, beq_iff_eq] at hmem
          rcases hmem with h1 | h2
          · exact absurd h1 hc
          · exact h2
        have hlen := ih hnd' hmem'
        simp [List.filter_cons, hu]
        omega

/-- C9: `removeUser` on an absent identity returns `false` and leaves the
store unchanged; on a present identity (in a duplicate-free store, with the
write succeeding) it returns `true` and the persisted result is the store
minus exactly the one record with that identity. -/
theorem removeUser_spec (disk : List User) (c : String)
    (hnd : (disk.map User.chatId).Nodup) :
    (isUserSubscribed disk c = false →
      ∀ w : Bool, removeUser disk w c = (false, disk))
    ∧ (isUserSubscribed disk c = true →
      (removeUser disk true c).1 = true
      ∧ (removeUser disk true c).2.length + 1 = disk.length
      ∧ ∀ u : User, u ∈ (removeUser disk true c).2 ↔ u ∈ disk ∧ u.chatId ≠ c) := by
  constructor
  · intro habs w
    have hnl : ¬ ((disk.filter fun u => u.chatId != c).length < disk.length) := by
      rw [filter_length_lt_iff]
      simp [habs]
    simp [removeUser, hnl]
  · intro hmem
    have hl : (disk.filter fun u => u.chatId != c).length < disk.length :=
      (filter_length_lt_iff disk c).mpr hmem
    refine ⟨by simp [removeUser, hl], ?_, ?_⟩
    · simpa [removeUser, hl] using remove_present_length disk c hnd hmem
    · intro u
      simp [removeUser, hl, List.mem_filter, bne_iff_ne]

/-- Witness for C9 at a concrete store and identity. -/
theorem removeUser_spec_witness :
    (demoUsers.map User.chatId).Nodup
    ∧ (removeUser demoUsers true "111").1 = true
    ∧ (removeUser demoUsers true "111").2.length + 1 = demoUsers.length :=
  ⟨by decide, ((removeUser_spec demoUsers "111" (by decide)).2 (by decide)).1,
    ((removeUser_spec demoUsers "111" (by decide)).2 (by decide)).2.1⟩

/-- C8 counterexample: when the `saveUsers` write fails, `addUser` leaves the
file contents unchanged but still returns `true` — the caller observes a
successful add, contradicting the claim that the operation is a no-op for
that call. -/
theorem persistence_failure_counterexample :
    addUser [] false "999" "carol" "2024-05-05" = (true, []) := rfl

/-- C8 amended: on a persistence write failure the prior on-disk contents are
preserved (writes are whole-file replacements and the error is caught and
logged), but the operation still reports success: `addUser` on an absent
identity returns `true` and `removeUser` on a present identity returns
`true`, each with the disk left as it was. -/
theorem persistence_failure_behavior (disk : List User) (c username now : String) :
    (isUserSubscribed disk c = false →
      addUser disk false c username now = (true, disk))
    ∧ (isUserSubscribed disk c = true →
      removeUser disk false c = (true, disk)) := by
  constructor
  · intro h
    simp only [isUserSubscribed] at h
    simp [addUser, h]
  · intro h
    have hl : (disk.filter fun u => u.chatId != c).length < disk.length :=
      (filter_length_lt_iff disk c).mpr h
    simp [removeUser, hl]

/-- Witness for C8's amended statement at a concrete store. -/
theorem persistence_failure_behavior_witness :
    isUserSubscribed demoUsers "999" = false
    ∧ addUser demoUsers false "999" "carol" "2024-05-05" = (true, demoUsers) :=
  ⟨by decide,
    (persistence_failure_behavior demoUsers "999" "carol" "2024-05-05").1 (by decide)⟩

/-- C7: on an inbound `/broadcast` command, a non-admin sender gets only the
unauthorized reply and no subscriber receives anything; the admin with no
argument text gets only the please-provide-a-message reply; the admin with
argument text causes the text to be broadcast to every subscriber followed by
a reply to the admin carrying the count of successful deliveries. -/
theorem broadcast_command_spec
    (admin : String) (sendOk : String → Bool) (writeOk : Bool) (now : String)
    (fp : JNum → String) (fd : String → String) (st : BotState) (upd : Update)
    (hs : jsStartsWith upd.text "/" = true)
    (hc : jsFirstToken upd.text = "/broadcast") :
    (upd.chatId ≠ admin →
      processUpdate admin sendOk writeOk now fp fd st upd
        = (st, [(upd.chatId, Messages.UNAUTHORIZED)]))
    ∧ (upd.chatId = admin →
          jsTrim (jsDrop upd.text (jsLength "/broadcast")) = "" →
      processUpdate admin sendOk writeOk now fp fd st upd
        = (st, [(upd.chatId, "Please provide a message to broadcast")]))
    ∧ (upd.chatId = admin →
          jsTrim (jsDrop upd.text (jsLength "/broadcast")) ≠ "" →
      processUpdate admin sendOk writeOk now fp fd st upd
        = (st, (st.users.map fun u =>
                  (u.chatId, jsTrim (jsDrop upd.text (jsLength "/broadcast"))))
               ++ [(upd.chatId,
                     jsReplace Messages.BROADCAST_SENT "{count}"
                       (toString (st.users.filter fun u => sendOk u.chatId).length))])) := by
  refine ⟨fun hne => ?_, fun heq hargs => ?_, fun heq hargs => ?_⟩
  · simp [processUpdate, hs, hc, hne]
  · simp [processUpdate, hs, hc, heq, hargs]
  · simp [processUpdate, hs, hc, heq, hargs, broadcastMessage_eq]

/-- Witness for C7: `/broadcast hello` from a non-admin sender yields only
the unauthorized reply. -/
theorem broadcast_command_spec_witness :
    jsStartsWith "/broadcast hello" "/" = true
    ∧ jsFirstToken "/broadcast hello" = "/broadcast"
    ∧ processUpdate "42" (fun _ => true) true "t0" demoFormatPrice demoFormatDate
        { users := demoUsers, snapshot := none }
        { chatId := "7", text := "/broadcast hello", username := "bob" }
      = ({ users := demoUsers, snapshot := none }, [("7", Messages.UNAUTHORIZED)]) :=
  ⟨by decide, by decide,
    (broadcast_command_spec "42" (fun _ => true) true "t0" demoFormatPrice
        demoFormatDate { users := demoUsers, snapshot := none }
        { chatId := "7", text := "/broadcast hello", username := "bob" }
        (by decide) (by decide)).1 (by decide)⟩

end GoldBot
